import Mathlib

/-!
Verification of the aisuite normalization layer.

This file shallowly embeds the request-building, response-normalization and
rerank-record code of the aisuite repository and proves properties of the
embedded definitions.  Python dictionaries with a fixed key set are embedded
as structures, optional keys / possibly-`None` values as `Option`, runtime
exceptions as an `Except PyErr` result, and the warning log of the rerank
path as an explicit list of emitted messages.  Each `chat_completions_create`
embedding returns the vendor-facing request value it would hand to the vendor
client (the vendor call itself is an external collaborator); returning
`.error` means the exception is raised before any vendor request exists.
-/

set_option autoImplicit false

namespace Aisuite

/-- Python runtime exceptions that the embedded code can raise. -/
inductive PyErr where
  | indexError
  | typeError (msg : String)
  | keyError (msg : String)
  | valueError (msg : String)
  | environmentError (msg : String)
deriving DecidableEq, Repr

/-- Python truthiness of an optional string: `None` and `""` are falsy. -/
def pyStrTruthy : Option String → Bool
  | none => false
  | some s => s ≠ ""

/-- Python `a or b` on optional strings (used for `config.get(...) or os.getenv(...)`). -/
def pyOr (a b : Option String) : Option String :=
  if pyStrTruthy a then a else b

/-- Python `len(x)` where `x` may be `None`: raises `TypeError` on `None`. -/
def pyLen {α : Type} : Option (List α) → Except PyErr Nat
  | none => .error (.typeError "object of type NoneType has no len()")
  | some l => .ok l.length

/-! ## Rerank normalization (src/aisuite/framework/rerank_util.py)

Documents are either plain strings or rich documents carrying a `text` field
(`rerankers.results.Document`); ids are embedded as strings (the source
applies `str(...)` to every id it emits).  Metadata is an association list
standing for the Python dict; `None` metadata is `none`.  Each function
returns the warning messages it logs alongside its value. -/

/-- A document input element: a plain string or a rich document with a `text` field. -/
inductive RDoc where
  | str (s : String)
  | doc (text : String)
deriving DecidableEq, Repr

/-- The duck-typed `docs` argument of `create_ranking_records`: a single
string/document, a list of them, or any other (unsupported) value. -/
inductive DocsInput where
  | single (d : RDoc)
  | list (ds : List RDoc)
  | other
deriving DecidableEq, Repr

/-- The Google `RankingRecord` wire form built by the rerank path. -/
structure RankingRecord where
  id : String
  content : String
  title : Option String
  score : Option String
deriving DecidableEq, Repr

/-- Warning logged by `create_ranking_record` when a record has no text and no title. -/
def needTextMsg : String := "Rerank must be provided with text or title."

/-- Warning logged by `_log_no_ranking_records`. -/
def noValidMsg : String := "Did not find any valid ranking records"

/-- Embeds `key_from_metadata_or_none`: `None` and the empty dict are falsy,
otherwise look the key up in the dict. -/
def key_from_metadata_or_none (metadata : Option (List (String × String))) (key : String) :
    Option String :=
  match metadata with
  | none => none
  | some m => if m.isEmpty then none else (m.find? (fun kv => kv.1 == key)).map (fun kv => kv.2)

/-- Embeds `create_ranking_record`: returns `none` (plus a warning) when both the
text and the metadata title are falsy, otherwise the built record. -/
def create_ranking_record (doc_id : String) (text : String)
    (metadata : Option (List (String × String))) : Option RankingRecord × List String :=
  let title := key_from_metadata_or_none metadata "title"
  if text = "" ∧ ¬ pyStrTruthy title then
    (none, [needTextMsg])
  else
    (some ⟨doc_id, text, title, key_from_metadata_or_none metadata "score"⟩, [])

/-- Embeds `get_doc_text`: a string is itself, a rich document yields its `text` field. -/
def get_doc_text : RDoc → String
  | .str s => s
  | .doc t => t

/-- Embeds `parse_single_ranking_record`.  The source evaluates `len(doc_ids)`
unguarded, so a `None` `doc_ids` raises `TypeError` here. -/
def parse_single_ranking_record (d : RDoc) (metadata : Option (List (String × String)))
    (doc_ids : Option (List String)) : Except PyErr (Option RankingRecord × List String) :=
  match pyLen doc_ids with
  | .error e => .error e
  | .ok n =>
    if n ≥ 1 then
      .ok (create_ranking_record ((doc_ids.getD []).headD "") (get_doc_text d) metadata)
    else
      .ok (create_ranking_record "1" (get_doc_text d) metadata)

/-- Embeds `get_doc_id`: the supplied id at position `i` is used only when the id
list is truthy, covers the whole document list, and the entry itself is truthy;
otherwise the positional index.  (The index access is guarded by
`len(doc_ids) >= docs_len` with `i < docs_len` at every call site.) -/
def get_doc_id (doc_ids : Option (List String)) (docs_len i : Nat) : String :=
  match doc_ids with
  | none => toString i
  | some ids =>
    if ids ≠ [] ∧ docs_len ≤ ids.length ∧ ids.getD i "" ≠ "" then ids.getD i ""
    else toString i

/-- Embeds `parse_to_ranking_record`: both the string and the rich-document case
build a record from `get_doc_id` and the resolved text. -/
def parse_to_ranking_record (d : RDoc) (metadata : Option (List (String × String)))
    (doc_ids : Option (List String)) (i docs_len : Nat) : Option RankingRecord × List String :=
  match d with
  | .doc t => create_ranking_record (get_doc_id doc_ids docs_len i) t metadata
  | .str s => create_ranking_record (get_doc_id doc_ids docs_len i) s metadata

/-- Embeds `create_ranking_records`: dispatch on the shape of `docs`, drop
invalid records, and log `noValidMsg` when no valid record was produced. -/
def create_ranking_records (docs : DocsInput) (doc_ids : Option (List String))
    (metadata : Option (List (String × String))) :
    Except PyErr (List RankingRecord × List String) :=
  match docs with
  | .single d =>
    match parse_single_ranking_record d metadata doc_ids with
    | .error e => .error e
    | .ok (some r, log) => .ok ([r], log)
    | .ok (none, log) => .ok ([], log ++ [noValidMsg])
  | .list ds =>
    let results := ds.enum.map fun p => parse_to_ranking_record p.2 metadata doc_ids p.1 ds.length
    let log := results.foldl (fun acc r => acc ++ r.2) []
    let recs := results.filterMap (fun r => r.1)
    if recs.length = 0 then .ok (recs, log ++ [noValidMsg])
    else .ok (recs, log)
  | .other => .ok ([], [noValidMsg])

example :
    create_ranking_records (.list [.str "a", .str "b", .str "c"]) (some ["x", "y"]) none
      = .ok ([⟨"0", "a", none, none⟩, ⟨"1", "b", none, none⟩, ⟨"2", "c", none, none⟩], []) := by
  rfl

example :
    create_ranking_records (.single (.str "hello")) none (some [("title", "T")])
      = .error (.typeError "object of type NoneType has no len()") := by
  rfl

example :
    create_ranking_records (.list [.str "", .str ""]) none none
      = .ok ([], [needTextMsg, needTextMsg, noValidMsg]) := by
  rfl

/-! ## Canonical chat messages and tool descriptors

A chat message dict `{"role": ..., "content": ...}`; the request-building
paths embedded below read exactly these two keys. -/

/-- A caller-supplied chat message. -/
structure Msg where
  role : String
  content : String
deriving DecidableEq, Repr

/-- One named argument of a tool descriptor; only the `required` flag of the
per-argument schema is inspected by the adapters, the rest rides along opaquely. -/
structure ToolArg where
  name : String
  requiredFlag : Bool
deriving DecidableEq, Repr

/-- The unified tool descriptor `{"name", "description", "args"}`. -/
structure ToolDesc where
  name : String
  description : String
  args : List ToolArg
deriving DecidableEq, Repr

/-! ## AWS Bedrock adapter (src/src/aisuite/providers/aws_provider.py) -/

/-- A Bedrock tool: `args` passes through as `inputSchema.json.properties` and
`required` collects the names of args whose `required` flag is set. -/
structure BedrockTool where
  name : String
  description : String
  properties : List ToolArg
  required : List String
deriving DecidableEq, Repr

/-- Embeds the per-tool conversion loop of `AwsChatProvider.chat_completions_create`. -/
def convert_to_bedrock_tool (t : ToolDesc) : BedrockTool :=
  ⟨t.name, t.description, t.args, (t.args.filter (fun a => a.requiredFlag)).map (fun a => a.name)⟩

/-- One entry of Bedrock `messages`: `{"role": r, "content": [{"text": t}]}`. -/
structure AwsMsg where
  role : String
  text : String
deriving DecidableEq, Repr

/-- The keyword arguments of `converse`: `tools = none` means the `tools` key
is absent from the parameter dict. -/
structure AwsRequest where
  modelId : String
  messages : List AwsMsg
  system : List String
  inferenceConfig : List (String × String)
  additionalModelRequestFields : List (String × String)
  tools : Option (List BedrockTool)
deriving DecidableEq, Repr

/-- The `inference_parameters` list set in `AwsChatProvider.__init__`. -/
def aws_inference_parameters : List String :=
  ["maxTokens", "temperature", "topP", "stopSequences"]

/-- Embeds `AwsChatProvider.chat_completions_create` up to the `converse` call:
extract a leading system message, drop every other system message, partition
kwargs, convert tools (key added only when the built list is truthy), and
return the Converse API parameter dict.  `messages[0]` on an empty history
raises `IndexError` before any request exists. -/
def aws_chat_completions_create (model : String) (messages : List Msg)
    (tools : Option (List ToolDesc)) (kwargs : List (String × String)) :
    Except PyErr AwsRequest :=
  match messages with
  | [] => .error .indexError
  | m0 :: rest =>
    let sys_msgs := if m0.role = "system" then ([m0.content], rest) else ([], m0 :: rest)
    let formatted := (sys_msgs.2.filter (fun m => m.role ≠ "system")).map
      (fun m => AwsMsg.mk m.role m.content)
    let inference_config := kwargs.filter (fun kv => kv.1 ∈ aws_inference_parameters)
    let additional := kwargs.filter (fun kv => kv.1 ∉ aws_inference_parameters)
    let bedrock_tools : Option (List BedrockTool) :=
      match tools with
      | some ts => if ts ≠ [] then some (ts.map convert_to_bedrock_tool) else none
      | none => none
    .ok ⟨model, formatted, sys_msgs.1, inference_config, additional, bedrock_tools⟩

/-! ## Anthropic adapter (src/src/aisuite/providers/anthropic_provider.py) -/

/-- The `system` argument of `client.messages.create`: either the first
message content or the literal `[]` default. -/
inductive AnthropicSystem where
  | text (s : String)
  | emptyList
deriving DecidableEq, Repr

/-- An Anthropic tool: the unified `args` mapping becomes `input_schema`. -/
structure AnthropicTool where
  name : String
  description : String
  input_schema : List ToolArg
deriving DecidableEq, Repr

/-- The keyword arguments of `client.messages.create`; `tools = none` means no
`tools` kwarg was added. -/
structure AnthropicRequest where
  model : String
  system : AnthropicSystem
  messages : List Msg
  max_tokens : Nat
  tools : Option (List AnthropicTool)
deriving DecidableEq, Repr

/-- Embeds `AnthropicChatProvider._convert_to_anthropic_tools` (the truthy branch). -/
def convert_to_anthropic_tools (ts : List ToolDesc) : List AnthropicTool :=
  ts.map (fun t => ⟨t.name, t.description, t.args⟩)

/-- Embeds `AnthropicChatProvider.chat_completions_create` up to the
`messages.create` call: route a leading system message to the `system`
parameter, pass the remaining messages through unchanged, default
`max_tokens` to 4096, and add the `tools` kwarg only when `tools` is truthy.
`messages[0]` on an empty history raises `IndexError`. -/
def anthropic_chat_completions_create (model : String) (messages : List Msg)
    (tools : Option (List ToolDesc)) (max_tokens_kwarg : Option Nat) :
    Except PyErr AnthropicRequest :=
  match messages with
  | [] => .error .indexError
  | m0 :: rest =>
    let sys_msgs : AnthropicSystem × List Msg :=
      if m0.role = "system" then (.text m0.content, rest) else (.emptyList, m0 :: rest)
    let mt := max_tokens_kwarg.getD 4096
    let atools : Option (List AnthropicTool) :=
      match tools with
      | some ts => if ts ≠ [] then some (convert_to_anthropic_tools ts) else none
      | none => none
    .ok ⟨model, sys_msgs.1, sys_msgs.2, mt, atools⟩

example :
    anthropic_chat_completions_create "m" [⟨"system", "s1"⟩, ⟨"user", "u"⟩, ⟨"system", "s2"⟩]
      none none
      = .ok ⟨"m", .text "s1", [⟨"user", "u"⟩, ⟨"system", "s2"⟩], 4096, none⟩ := by
  rfl

example :
    aws_chat_completions_create "m" [⟨"system", "s1"⟩, ⟨"user", "u"⟩, ⟨"system", "s2"⟩] none []
      = .ok ⟨"m", [⟨"user", "u"⟩], ["s1"], [], [], none⟩ := by
  rfl

/-! ## Fireworks adapter (src/src/aisuite/providers/fireworks_provider.py) -/

/-- The JSON body POSTed to the Fireworks endpoint; `tools = none` means the
`"tools"` key is absent from the body. -/
structure FireworksRequest where
  model : String
  messages : List Msg
  kwargs : List (String × String)
  tools : Option (List ToolDesc)
deriving DecidableEq, Repr

/-- Embeds the request construction of `FireworksChatProvider.chat_completions_create`:
model, messages and kwargs are placed in the body verbatim and the `tools` key
is added only when `tools` is truthy. -/
def fireworks_build_request (model : String) (messages : List Msg)
    (tools : Option (List ToolDesc)) (kwargs : List (String × String)) : FireworksRequest :=
  { model := model, messages := messages, kwargs := kwargs,
    tools := match tools with
      | some ts => if ts ≠ [] then some ts else none
      | none => none }

/-! ## Azure adapter (src/src/aisuite/providers/azure_provider.py) -/

/-- The JSON body POSTed to the Azure endpoint; `tools = none` means the
`"tools"` key is absent from the body. -/
structure AzureRequest where
  messages : List Msg
  kwargs : List (String × String)
  tools : Option (List ToolDesc)
deriving DecidableEq, Repr

/-- Embeds the request construction of `AzureChatProvider.chat_completions_create`:
`stream` is removed from kwargs unconditionally and the `tools` key is added
only when `tools` is truthy. -/
def azure_build_request (messages : List Msg) (tools : Option (List ToolDesc))
    (kwargs : List (String × String)) : AzureRequest :=
  { messages := messages,
    kwargs := kwargs.filter (fun kv => kv.1 ≠ "stream"),
    tools := match tools with
      | some ts => if ts ≠ [] then some ts else none
      | none => none }

/-! ## Vendor responses and canonical normalization

The OpenAI-style JSON responses consumed by the Fireworks and Azure
normalizers.  `Option` on `tool_calls` / `function_call` models key presence
(`"tool_calls" in response_message`). -/

/-- One entry of a vendor `tool_calls` array. -/
structure ToolCallJson where
  id : String
  name : String
  arguments : String
deriving DecidableEq, Repr

/-- A legacy vendor `function_call` object. -/
structure FunctionCallJson where
  name : String
  arguments : String
deriving DecidableEq, Repr

/-- The `message` object of a vendor response choice. -/
structure VendorMessage where
  content : String
  tool_calls : Option (List ToolCallJson)
  function_call : Option FunctionCallJson
deriving DecidableEq, Repr

/-- One vendor response choice; `finish_reason = none` models an absent key. -/
structure VendorChoice where
  message : VendorMessage
  finish_reason : Option String
deriving DecidableEq, Repr

/-- The vendor response body: `{"choices": [...]}`. -/
structure VendorResponse where
  choices : List VendorChoice
deriving DecidableEq, Repr

/-- The canonical normalized message; fields start out unset (`none`) in a
fresh `ChatCompletionResponse` and are assigned by the normalizers. -/
structure NormMessage where
  content : Option String
  tool_calls : Option (List ToolCallJson)
  function_call : Option FunctionCallJson
deriving DecidableEq, Repr

/-- One canonical choice; `finish_reason = none` models the attribute never
having been assigned. -/
structure NormChoice where
  message : NormMessage
  finish_reason : Option String
deriving DecidableEq, Repr

/-- The canonical `ChatCompletionResponse`. -/
structure NormResponse where
  choices : List NormChoice
deriving DecidableEq, Repr

/-- Embeds `ChatCompletionResponse.__init__`: a single empty choice. -/
def freshChatCompletionResponse : NormResponse :=
  ⟨[⟨⟨none, none, none⟩, none⟩]⟩

/-- Embeds `FireworksChatProvider._normalize_response`: content is copied,
then `tool_calls` wins over `function_call`, else the vendor finish reason
with default `"stop"`.  `response_data["choices"][0]` raises `IndexError`
on an empty choice list. -/
def fireworks_normalize_response (rd : VendorResponse) : Except PyErr NormResponse :=
  match rd.choices with
  | [] => .error .indexError
  | c0 :: _ =>
    let base : NormChoice := ⟨⟨some c0.message.content, none, none⟩, none⟩
    let choice : NormChoice :=
      match c0.message.tool_calls with
      | some tc =>
        { base with message := { base.message with tool_calls := some tc },
                    finish_reason := some "tool_calls" }
      | none =>
        match c0.message.function_call with
        | some fc =>
          { base with message := { base.message with function_call := some fc },
                      finish_reason := some "function_call" }
        | none => { base with finish_reason := some (c0.finish_reason.getD "stop") }
    .ok ⟨[choice]⟩

/-- Embeds the response-normalization section of
`AzureChatProvider.chat_completions_create` (the body of the `urlopen` block):
identical to the Fireworks normalizer on the two tool branches, but when
neither `tool_calls` nor `function_call` is present no `finish_reason` is
ever assigned. -/
def azure_normalize_response (rd : VendorResponse) : Except PyErr NormResponse :=
  match rd.choices with
  | [] => .error .indexError
  | c0 :: _ =>
    let base : NormChoice := ⟨⟨some c0.message.content, none, none⟩, none⟩
    let choice : NormChoice :=
      match c0.message.tool_calls with
      | some tc =>
        { base with message := { base.message with tool_calls := some tc },
                    finish_reason := some "tool_calls" }
      | none =>
        match c0.message.function_call with
        | some fc =>
          { base with message := { base.message with function_call := some fc },
                      finish_reason := some "function_call" }
        | none => base
    .ok ⟨[choice]⟩

example :
    azure_normalize_response ⟨[⟨⟨"hi", none, none⟩, some "length"⟩]⟩
      = .ok ⟨[⟨⟨some "hi", none, none⟩, none⟩]⟩ := by
  rfl

example :
    fireworks_normalize_response ⟨[⟨⟨"hi", none, none⟩, some "length"⟩]⟩
      = .ok ⟨[⟨⟨some "hi", none, none⟩, some "length"⟩]⟩ := by
  rfl

/-! ## Google role transform (src/src/aisuite/providers/google_provider_shared.py)

`transform_roles` rewrites `message["role"]` in place on each dict of the
caller-supplied list and returns that same list, so the returned list is the
post-call state of the caller's history. -/

/-- The `openai_roles_to_google_roles` mapping. -/
def openai_roles_to_google_roles : List (String × String) :=
  [("system", "user"), ("assistant", "model")]

/-- The effect of one iteration of the `transform_roles` loop on one message:
the role is rewritten when the mapping has an entry for it (the mapped values
`"user"`/`"model"` are always truthy), the content is untouched. -/
def google_role_map (m : Msg) : Msg :=
  match openai_roles_to_google_roles.lookup m.role with
  | some r => { m with role := r }
  | none => m

/-- Embeds `transform_roles`: the value of the caller's message list after the
call (the source mutates each dict in place and returns the same list). -/
def transform_roles (messages : List Msg) : List Msg :=
  messages.map google_role_map

/-! ## Google Vertex adapter (src/aisuite/providers/googlevertex_provider.py) -/

/-- One history entry handed to `start_chat`: `Content(role, [Part.from_text(content)])`. -/
structure GoogleHistEntry where
  role : String
  text : String
deriving DecidableEq, Repr

/-- Embeds the src/aisuite variant of `convert_openai_to_google_ai`. -/
def convert_openai_to_google_ai (messages : List Msg) : List GoogleHistEntry :=
  messages.map (fun m => ⟨m.role, m.content⟩)

/-- What `GooglevertexChatProvider.chat_completions_create` hands to the vendor
chat session: the history (all but the last transformed message) and the
content of the last transformed message, sent as the live turn.  The numeric
temperature is carried as its literal text. -/
structure VertexCall where
  model : String
  temperature : String
  history : List GoogleHistEntry
  last_message : String
deriving DecidableEq, Repr

/-- Embeds `GooglevertexChatProvider.chat_completions_create` up to
`send_message`: transform roles, convert all but the last message to history,
and send the last message.  `transformed_messages[-1]` on an empty history
raises `IndexError` before the vendor model object is even built. -/
def googlevertex_chat_completions_create (model : String) (messages : List Msg)
    (kwargs_temperature : Option String) : Except PyErr VertexCall :=
  let temperature := kwargs_temperature.getD "0.7"
  let transformed := transform_roles messages
  let history := convert_openai_to_google_ai transformed.dropLast
  match transformed.getLast? with
  | none => .error .indexError
  | some last => .ok ⟨model, temperature, history, last.content⟩

/-! ## Adapter constructors (azure_provider.py, fireworks_provider.py)

Neither constructor touches any transport: `AzureChatProvider.__init__` only
resolves and validates `api_key`/`base_url`, and
`FireworksChatProvider.__init__` only resolves `api_key` and the timeout, so
an error result here is raised before any network call can occur. -/

/-- The explicit config dict of `AzureChatProvider.__init__` (absent key = `none`). -/
structure AzureConfig where
  api_key : Option String
  base_url : Option String
deriving DecidableEq, Repr

/-- The environment variables read by `AzureChatProvider.__init__`. -/
structure AzureEnv where
  AZURE_API_KEY : Option String
  AZURE_BASE_URL : Option String
deriving DecidableEq, Repr

/-- The adapter state built by a successful `AzureChatProvider.__init__`. -/
structure AzureState where
  api_key : String
  base_url : String
deriving DecidableEq, Repr

/-- Embeds `AzureChatProvider.__init__`: `config.get(...) or os.getenv(...)`
resolution and the two `ValueError` checks, in source order. -/
def azure_init (config : AzureConfig) (env : AzureEnv) : Except PyErr AzureState :=
  let base_url := pyOr config.base_url env.AZURE_BASE_URL
  let api_key := pyOr config.api_key env.AZURE_API_KEY
  if ¬ pyStrTruthy api_key then
    .error (.valueError "For Azure, api_key is required.")
  else if ¬ pyStrTruthy base_url then
    .error (.valueError "For Azure, base_url is required. Check your deployment page for a URL like this - https://<model-deployment-name>.<region>.models.ai.azure.com")
  else
    .ok ⟨api_key.getD "", base_url.getD ""⟩

/-- The explicit config dict of `FireworksChatProvider.__init__`. -/
structure FireworksConfig where
  api_key : Option String
  timeout : Option Nat
deriving DecidableEq, Repr

/-- The environment variable read by `FireworksChatProvider.__init__`. -/
structure FireworksEnv where
  FIREWORKS_API_KEY : Option String
deriving DecidableEq, Repr

/-- The adapter state built by a successful `FireworksChatProvider.__init__`. -/
structure FireworksState where
  api_key : String
  timeout : Nat
deriving DecidableEq, Repr

/-- Embeds `FireworksChatProvider.__init__`: `config.get("api_key", os.getenv(...))`
(the env var is consulted only when the config key is absent), the `ValueError`
on a falsy key, and the 30-second default timeout. -/
def fireworks_init (config : FireworksConfig) (env : FireworksEnv) :
    Except PyErr FireworksState :=
  let api_key := config.api_key <|> env.FIREWORKS_API_KEY
  if ¬ pyStrTruthy api_key then
    .error (.valueError "Fireworks API key is missing. Please provide it in the config or set the FIREWORKS_API_KEY environment variable.")
  else
    .ok ⟨api_key.getD "", config.timeout.getD 30⟩

example : azure_init ⟨none, some "https://x"⟩ ⟨none, none⟩
    = .error (.valueError "For Azure, api_key is required.") := by rfl

example : fireworks_init ⟨none, none⟩ ⟨some "k"⟩ = .ok ⟨"k", 30⟩ := by rfl

/-! ## LangChain bridge normalization (src/src/aisuite/providers/langchain_provider.py)

`LangchainChatProvider._normalize_response` builds an assistant message from
the first generation and then calls
`ChatCompletionResponse(id=..., object=..., created=..., model=..., choices=..., usage=...)`.
`ChatCompletionResponse.__init__` (src/src/aisuite/framework/chat_completion_response.py)
accepts no keyword arguments, so that call raises `TypeError`; the enclosing
`except Exception` re-wraps any exception of the `try` block as an `LLMError`
with the prefix `Error normalizing Langchain response: `. -/

/-- One LangChain generation: the message content, the `additional_kwargs`
side channel, and the generation finish reason. -/
structure LcGeneration where
  content : String
  additional_function_call : Option FunctionCallJson
  additional_tool_calls : Option (List ToolCallJson)
  finish_reason : Option String
deriving DecidableEq, Repr

/-- The `llm_output` mapping of a LangChain result (`.get` keys used by the source). -/
structure LcLlmOutput where
  id : Option String
  created : Option Nat
  model : Option String
deriving DecidableEq, Repr

/-- The LangChain `generate` result consumed by `_normalize_response`. -/
structure LcResponse where
  generations : List (List LcGeneration)
  llm_output : LcLlmOutput
deriving DecidableEq, Repr

/-- The `assistant_message` dict assembled before the constructor call. -/
structure LcAssistantMessage where
  role : String
  content : String
  function_call : Option FunctionCallJson
  tool_calls : Option (List ToolCallJson)
deriving DecidableEq, Repr

/-- Embeds the `assistant_message` assembly of `_normalize_response`. -/
def langchain_assistant_message (gen : LcGeneration) : LcAssistantMessage :=
  { role := "assistant", content := gen.content,
    function_call := gen.additional_function_call,
    tool_calls := gen.additional_tool_calls }

/-- The keyword parameters accepted by `ChatCompletionResponse.__init__`
(`def __init__(self)` — none). -/
def chatCompletionResponseInitParams : List String := []

/-- Embeds a Python call `ChatCompletionResponse(**kwargs)`: any keyword
argument outside the accepted parameter list raises `TypeError`. -/
def call_chat_completion_response (kwargs : List String) : Except PyErr NormResponse :=
  match kwargs.find? (fun k => ! chatCompletionResponseInitParams.contains k) with
  | some k => .error (.typeError ("__init__() got an unexpected keyword argument " ++ k))
  | none => .ok freshChatCompletionResponse

/-- Result of `_normalize_response`: a canonical response or a raised `LLMError`. -/
inductive LcNormResult where
  | ok (r : NormResponse)
  | llmError (msg : String)
deriving DecidableEq, Repr

/-- Whether a `_normalize_response` result is a raised `LLMError`. -/
def LcNormResult.isLlmError : LcNormResult → Bool
  | .ok _ => false
  | .llmError _ => true

/-- Python `str(e)` for the exceptions arising inside the `try` block. -/
def pyErrStr : PyErr → String
  | .indexError => "list index out of range"
  | .typeError m => m
  | .keyError m => m
  | .valueError m => m
  | .environmentError m => m

/-- Embeds `LangchainChatProvider._normalize_response`: fetch
`generations[0][0]`, assemble the assistant message, then call the
`ChatCompletionResponse` constructor with the six keyword arguments the
source passes; every exception of the block is re-raised as `LLMError`. -/
def langchain_normalize_response (rd : LcResponse) : LcNormResult :=
  let inner : Except PyErr NormResponse := do
    let gen ←
      match rd.generations with
      | [] => Except.error PyErr.indexError
      | g0 :: _ =>
        match g0 with
        | [] => Except.error PyErr.indexError
        | gen :: _ => Except.ok gen
    let _assistant := langchain_assistant_message gen
    call_chat_completion_response ["id", "object", "created", "model", "choices", "usage"]
  match inner with
  | .ok r => .ok r
  | .error e => .llmError ("Error normalizing Langchain response: " ++ pyErrStr e)

example :
    langchain_normalize_response ⟨[[⟨"hi", none, none, some "stop"⟩]], ⟨some "1", some 0, some "m"⟩⟩
      = .llmError "Error normalizing Langchain response: __init__() got an unexpected keyword argument id" := by
  rfl

/-! ## Helper lemmas -/

/-- A record successfully built by `create_ranking_record` carries the requested
id, the given text as content, and passes the text-or-title validity check. -/
theorem create_ranking_record_ok {doc_id text : String}
    {metadata : Option (List (String × String))} {r : RankingRecord}
    (h : (create_ranking_record doc_id text metadata).1 = some r) :
    r.id = doc_id ∧ r.content = text ∧ (r.content ≠ "" ∨ pyStrTruthy r.title = true) := by
  simp only [create_ranking_record] at h
  split at h
  · simp at h
  · next hc =>
    simp only [Option.some.injEq] at h
    subst h
    refine ⟨rfl, rfl, ?_⟩
    by_cases ht : text = ""
    · subst ht
      simp only [ne_eq, not_true_eq_false, false_or]
      by_contra hty
      exact hc ⟨rfl, hty⟩
    · exact Or.inl ht

/-- When the supplied id list is shorter than the document list, `get_doc_id`
always falls back to the positional index. -/
theorem get_doc_id_short {doc_ids : List String} {docs_len i : Nat}
    (h : doc_ids.length < docs_len) :
    get_doc_id (some doc_ids) docs_len i = toString i := by
  simp only [get_doc_id]
  rw [if_neg]
  rintro ⟨-, h2, -⟩
  omega

/-- A record built by `parse_to_ranking_record` comes from `create_ranking_record`
with id `get_doc_id doc_ids docs_len i`. -/
theorem parse_to_ranking_record_ok {d : RDoc} {metadata : Option (List (String × String))}
    {doc_ids : Option (List String)} {i docs_len : Nat} {r : RankingRecord}
    (h : (parse_to_ranking_record d metadata doc_ids i docs_len).1 = some r) :
    r.id = get_doc_id doc_ids docs_len i ∧ (r.content ≠ "" ∨ pyStrTruthy r.title = true) := by
  unfold parse_to_ranking_record at h
  rcases d with s | t
  · exact ⟨(create_ranking_record_ok h).1, (create_ranking_record_ok h).2.2⟩
  · exact ⟨(create_ranking_record_ok h).1, (create_ranking_record_ok h).2.2⟩

/-- A successful `parse_single_ranking_record` result only carries records that
pass the text-or-title validity rule. -/
theorem parse_single_ranking_record_ok {d : RDoc}
    {metadata : Option (List (String × String))} {doc_ids : Option (List String)}
    {p : Option RankingRecord × List String}
    (h : parse_single_ranking_record d metadata doc_ids = .ok p) :
    ∀ r, p.1 = some r → r.content ≠ "" ∨ pyStrTruthy r.title = true := by
  intro r hr
  rcases doc_ids with _ | ids
  · simp [parse_single_ranking_record, pyLen] at h
  · simp only [parse_single_ranking_record, pyLen] at h
    split at h <;>
    · simp only [Except.ok.injEq] at h
      subst h
      exact (create_ranking_record_ok hr).2.2

/-- Every record in a successful `create_ranking_records` output satisfies the
text-or-title validity rule. -/
theorem create_ranking_records_valid {docs : DocsInput} {doc_ids : Option (List String)}
    {metadata : Option (List (String × String))} {recs : List RankingRecord}
    {log : List String}
    (h : create_ranking_records docs doc_ids metadata = .ok (recs, log)) :
    ∀ r ∈ recs, r.content ≠ "" ∨ pyStrTruthy r.title = true := by
  intro r hr
  rcases docs with d | ds | _
  · rcases hps : parse_single_ranking_record d metadata doc_ids with e | p
    · simp [create_ranking_records, hps] at h
    · rcases p with ⟨o, lg⟩
      rcases o with _ | r0
      · simp only [create_ranking_records, hps, Except.ok.injEq, Prod.mk.injEq] at h
        obtain ⟨hrecs, -⟩ := h
        subst hrecs
        simp at hr
      · simp only [create_ranking_records, hps, Except.ok.injEq, Prod.mk.injEq] at h
        obtain ⟨hrecs, -⟩ := h
        subst hrecs
        simp only [List.mem_singleton] at hr
        subst hr
        exact parse_single_ranking_record_ok hps r rfl
  · simp only [create_ranking_records] at h
    split at h <;>
    · simp only [Except.ok.injEq, Prod.mk.injEq] at h
      obtain ⟨hrecs, -⟩ := h
      subst hrecs
      rw [List.mem_filterMap] at hr
      obtain ⟨pr, hpr, hfst⟩ := hr
      rw [List.mem_map] at hpr
      obtain ⟨p, -, rfl⟩ := hpr
      exact (parse_to_ranking_record_ok hfst).2
  · simp only [create_ranking_records, Except.ok.injEq, Prod.mk.injEq] at h
    obtain ⟨hrecs, -⟩ := h
    subst hrecs
    simp at hr

/-! ## Claim theorems -/

/-- C4: the claim states that `create_ranking_records("hello", None, {"title": "T"})`
returns one record with id `"1"`, content `"hello"`, title `"T"` and does not
raise.  The code instead evaluates `len(doc_ids)` with `doc_ids = None` inside
`parse_single_ranking_record`, raising `TypeError`; this theorem evaluates the
embedded code at exactly that input. -/
theorem c4_single_string_none_doc_ids_raises :
    create_ranking_records (.single (.str "hello")) none (some [("title", "T")])
      = .error (.typeError "object of type NoneType has no len()") := by
  rfl

/-- C5: when the supplied `doc_ids` list has fewer entries than the document
list, every record produced for position `i` gets id `toString i` (all
supplied ids are ignored); concretely, `create_ranking_records(["a","b","c"],
["x","y"], None)` returns three records with ids `"0"`, `"1"`, `"2"`. -/
theorem c5_short_doc_ids_fall_back_to_positional :
    (∀ (d : RDoc) (metadata : Option (List (String × String))) (doc_ids : List String)
       (i docs_len : Nat) (r : RankingRecord),
       doc_ids.length < docs_len →
       (parse_to_ranking_record d metadata (some doc_ids) i docs_len).1 = some r →
       r.id = toString i)
    ∧ create_ranking_records (.list [.str "a", .str "b", .str "c"]) (some ["x", "y"]) none
        = .ok ([⟨"0", "a", none, none⟩, ⟨"1", "b", none, none⟩, ⟨"2", "c", none, none⟩], []) := by
  constructor
  · intro d metadata doc_ids i docs_len r hlen hp
    rw [(parse_to_ranking_record_ok hp).1, get_doc_id_short hlen]
  · rfl

/-- Witness for C5 at document `"b"`, position 1 of 3, ids `["x", "y"]`. -/
theorem c5_witness : (RankingRecord.mk "1" "b" none none).id = toString 1 :=
  c5_short_doc_ids_fall_back_to_positional.1 (.str "b") none ["x", "y"] 1 3
    ⟨"1", "b", none, none⟩ (by decide) (by rfl)

/-- C6: every record in a `create_ranking_records` output has non-empty content
or a truthy title (invalid candidates are dropped, not raised), and the
all-empty batch `["", ""]` returns an empty list while logging the
no-valid-records warning exactly once. -/
theorem c6_record_validity_invariant :
    (∀ (docs : DocsInput) (doc_ids : Option (List String))
       (metadata : Option (List (String × String))) (recs : List RankingRecord)
       (log : List String),
       create_ranking_records docs doc_ids metadata = .ok (recs, log) →
       ∀ r ∈ recs, r.content ≠ "" ∨ pyStrTruthy r.title = true)
    ∧ create_ranking_records (.list [.str "", .str ""]) none none
        = .ok ([], [needTextMsg, needTextMsg, noValidMsg])
    ∧ [needTextMsg, needTextMsg, noValidMsg].count noValidMsg = 1 :=
  ⟨fun _ _ _ _ _ h => create_ranking_records_valid h, by rfl, by decide⟩

/-- Witness for C6 on the singleton batch `["a"]`, whose sole record has
non-empty content. -/
theorem c6_witness :
    (RankingRecord.mk "0" "a" none none).content ≠ "" ∨
      pyStrTruthy (RankingRecord.mk "0" "a" none none).title = true :=
  c6_record_validity_invariant.1 (.list [.str "a"]) none none
    [⟨"0", "a", none, none⟩] [] (by rfl) ⟨"0", "a", none, none⟩ (by simp)

/-- C3: when the caller omits `tools` (`none`) or passes an empty list, the AWS
Converse parameters, the Fireworks body, the Azure body and the Anthropic
kwargs all lack the tools field entirely; moreover the AWS and Fireworks
requests never carry `some []` for any `tools` argument. -/
theorem c3_empty_tools_field_omitted :
    (∀ tools : Option (List ToolDesc), tools = none ∨ tools = some [] →
      (∀ model messages kwargs req,
         aws_chat_completions_create model messages tools kwargs = .ok req →
         req.tools = none)
      ∧ (∀ model messages kwargs,
         (fireworks_build_request model messages tools kwargs).tools = none)
      ∧ (∀ messages kwargs, (azure_build_request messages tools kwargs).tools = none)
      ∧ (∀ model messages mt req,
         anthropic_chat_completions_create model messages tools mt = .ok req →
         req.tools = none))
    ∧ (∀ (tools : Option (List ToolDesc)) model messages kwargs req,
       aws_chat_completions_create model messages tools kwargs = .ok req →
       req.tools ≠ some [])
    ∧ (∀ (tools : Option (List ToolDesc)) model messages kwargs,
       (fireworks_build_request model messages tools kwargs).tools ≠ some []) := by
  refine ⟨?_, ?_, ?_⟩
  · rintro tools (rfl | rfl) <;>
      refine ⟨fun model messages kwargs req h => ?_, fun model messages kwargs => by simp [fireworks_build_request],
        fun messages kwargs => by simp [azure_build_request],
        fun model messages mt req h => ?_⟩ <;>
      rcases messages with _ | ⟨m0, rest⟩ <;>
        first
          | (simp only [aws_chat_completions_create, Except.ok.injEq] at h; subst h; simp)
          | (simp only [anthropic_chat_completions_create, Except.ok.injEq] at h; subst h; simp)
          | simp [aws_chat_completions_create] at h
          | simp [anthropic_chat_completions_create] at h
  · intro tools model messages kwargs req h
    rcases messages with _ | ⟨m0, rest⟩
    · simp [aws_chat_completions_create] at h
    · simp only [aws_chat_completions_create, Except.ok.injEq] at h
      subst h
      rcases tools with _ | ts
      · simp
      · by_cases hts : ts = []
        · subst hts; simp
        · simp [hts, List.map_eq_nil_iff]
  · intro tools model messages kwargs
    rcases tools with _ | ts
    · simp [fireworks_build_request]
    · by_cases hts : ts = []
      · subst hts; simp [fireworks_build_request]
      · simp [fireworks_build_request, hts]

/-- Witness for C3: Fireworks body with omitted tools has no tools key. -/
theorem c3_witness : (fireworks_build_request "m" [] none []).tools = none :=
  (c3_empty_tools_field_omitted.1 none (Or.inl rfl)).2.1 "m" [] []

/-- C8: with the credential absent from both the explicit config and the
environment, the Azure and Fireworks constructors return the configuration
`ValueError` of their source; neither constructor contains any transport
step, so the error precedes any network call. -/
theorem c8_missing_credential_raises_config_error :
    (∀ (config : AzureConfig) (env : AzureEnv),
       config.api_key = none → env.AZURE_API_KEY = none →
       azure_init config env = .error (.valueError "For Azure, api_key is required."))
    ∧ (∀ (config : FireworksConfig) (env : FireworksEnv),
       config.api_key = none → env.FIREWORKS_API_KEY = none →
       fireworks_init config env
         = .error (.valueError "Fireworks API key is missing. Please provide it in the config or set the FIREWORKS_API_KEY environment variable.")) := by
  constructor
  · rintro ⟨ak, bu⟩ ⟨eak, ebu⟩ h1 h2
    simp only at h1 h2
    subst h1; subst h2
    simp [azure_init, pyOr, pyStrTruthy]
  · rintro ⟨ak, tmo⟩ ⟨eak⟩ h1 h2
    simp only at h1 h2
    subst h1; subst h2
    simp [fireworks_init, pyStrTruthy]

/-- Witness for C8 with an Azure config carrying only a base URL and an empty
environment. -/
theorem c8_witness :
    azure_init ⟨none, some "https://example"⟩ ⟨none, none⟩
      = .error (.valueError "For Azure, api_key is required.") :=
  c8_missing_credential_raises_config_error.1 ⟨none, some "https://example"⟩ ⟨none, none⟩
    rfl rfl

/-- C9: `LangchainChatProvider._normalize_response` raises `LLMError` on every
input (the `ChatCompletionResponse(id=..., ...)` constructor call always
raises `TypeError`, which the `except` block re-wraps), so no vendor response
ever yields a returned canonical response; at a well-formed input the error
carries the unexpected-keyword message. -/
theorem c9_langchain_normalize_always_llm_error :
    (∀ rd : LcResponse, (langchain_normalize_response rd).isLlmError = true)
    ∧ langchain_normalize_response
        ⟨[[⟨"hi", none, none, some "stop"⟩]], ⟨some "1", some 0, some "m"⟩⟩
      = .llmError "Error normalizing Langchain response: __init__() got an unexpected keyword argument id" := by
  constructor
  · rintro ⟨gens, out⟩
    rcases gens with _ | ⟨g0, gs⟩
    · rfl
    · rcases g0 with _ | ⟨gen, g0s⟩ <;> rfl
  · rfl

/-- C10: on an empty message history the AWS and Anthropic adapters index
`messages[0]` and the Google Vertex adapter indexes
`transformed_messages[-1]`, so all three raise `IndexError` and no vendor
request value is ever produced. -/
theorem c10_empty_messages_index_error :
    (∀ model (tools : Option (List ToolDesc)) kwargs,
       aws_chat_completions_create model [] tools kwargs = .error .indexError)
    ∧ (∀ model (tools : Option (List ToolDesc)) mt,
       anthropic_chat_completions_create model [] tools mt = .error .indexError)
    ∧ (∀ model t, googlevertex_chat_completions_create model [] t = .error .indexError) :=
  ⟨fun _ _ _ => rfl, fun _ _ _ => rfl, fun _ _ => rfl⟩

/-- C1 counterexample: the claim demands that system messages beyond the first
be omitted from every vendor request, but the Anthropic adapter passes the
remaining history through unchanged: with history
`[system s1, user u, system s2]` the vendor-facing message list still contains
exactly one message with role `system`. -/
theorem c1_counterexample_anthropic_keeps_extra_system :
    (anthropic_chat_completions_create "m"
        [⟨"system", "s1"⟩, ⟨"user", "u"⟩, ⟨"system", "s2"⟩] none none).map
      (fun r => r.messages.countP (fun m => m.role == "system"))
    = .ok 1 := by
  rfl

/-- C1 amended: for the AWS and Anthropic adapters a leading system message is
removed from the vendor message list and routed to the dedicated system
channel; AWS additionally drops every further system message, while Anthropic
passes the remaining history through unchanged (so further system messages
stay in the vendor message list). -/
theorem c1_amended_first_system_to_system_channel :
    (∀ model (m0 : Msg) rest tools kwargs req, m0.role = "system" →
       aws_chat_completions_create model (m0 :: rest) tools kwargs = .ok req →
       req.system = [m0.content] ∧ ∀ m ∈ req.messages, m.role ≠ "system")
    ∧ (∀ model (m0 : Msg) rest tools mt req, m0.role = "system" →
       anthropic_chat_completions_create model (m0 :: rest) tools mt = .ok req →
       req.system = .text m0.content ∧ req.messages = rest) := by
  constructor
  · intro model m0 rest tools kwargs req h0 h
    simp only [aws_chat_completions_create, Except.ok.injEq] at h
    subst h
    rw [if_pos h0]
    refine ⟨rfl, ?_⟩
    intro m hm
    simp only [List.mem_map, List.mem_filter] at hm
    obtain ⟨m1, ⟨-, hm1⟩, rfl⟩ := hm
    simpa using hm1
  · intro model m0 rest tools mt req h0 h
    simp only [anthropic_chat_completions_create, Except.ok.injEq] at h
    subst h
    rw [if_pos h0]
    exact ⟨rfl, rfl⟩

/-- Witness for C1 (amended) at the single-message history `[system s]` on AWS. -/
theorem c1_witness : AwsRequest.system ⟨"m", [], ["s"], [], [], none⟩ = ["s"] :=
  (c1_amended_first_system_to_system_channel.1 "m" ⟨"system", "s"⟩ [] none []
    ⟨"m", [], ["s"], [], [], none⟩ rfl rfl).1

/-- C2 counterexample: the claim says that with no tool-call structure the
normalized finish reason is the vendor's stated reason (default "stop"), but
the Azure normalizer leaves `finish_reason` unassigned in that branch: a
vendor response with finish reason "length" normalizes to `finish_reason =
none`, which is neither `some "length"` nor `some "stop"`. -/
theorem c2_counterexample_azure_ignores_vendor_finish_reason :
    azure_normalize_response ⟨[⟨⟨"hi", none, none⟩, some "length"⟩]⟩
      = .ok ⟨[⟨⟨some "hi", none, none⟩, none⟩]⟩
    ∧ (none : Option String) ≠ some "length"
    ∧ (none : Option String) ≠ some "stop" := by
  refine ⟨by rfl, by simp, by simp⟩

/-- C2 amended: the Fireworks normalizer realizes all three branches of the
claim (tool_calls wins, then function_call, else the vendor finish reason
defaulting to "stop", copying the vendor tool-call list verbatim); the Azure
normalizer realizes the two tool branches but leaves `finish_reason` unset in
the remaining case. -/
theorem c2_amended_finish_reason_branches :
    (∀ (c0 : VendorChoice) rest tc, c0.message.tool_calls = some tc →
       fireworks_normalize_response ⟨c0 :: rest⟩
         = .ok ⟨[⟨⟨some c0.message.content, some tc, none⟩, some "tool_calls"⟩]⟩)
    ∧ (∀ (c0 : VendorChoice) rest fc, c0.message.tool_calls = none →
       c0.message.function_call = some fc →
       fireworks_normalize_response ⟨c0 :: rest⟩
         = .ok ⟨[⟨⟨some c0.message.content, none, some fc⟩, some "function_call"⟩]⟩)
    ∧ (∀ (c0 : VendorChoice) rest, c0.message.tool_calls = none →
       c0.message.function_call = none →
       fireworks_normalize_response ⟨c0 :: rest⟩
         = .ok ⟨[⟨⟨some c0.message.content, none, none⟩, some (c0.finish_reason.getD "stop")⟩]⟩)
    ∧ (∀ (c0 : VendorChoice) rest tc, c0.message.tool_calls = some tc →
       azure_normalize_response ⟨c0 :: rest⟩
         = .ok ⟨[⟨⟨some c0.message.content, some tc, none⟩, some "tool_calls"⟩]⟩)
    ∧ (∀ (c0 : VendorChoice) rest fc, c0.message.tool_calls = none →
       c0.message.function_call = some fc →
       azure_normalize_response ⟨c0 :: rest⟩
         = .ok ⟨[⟨⟨some c0.message.content, none, some fc⟩, some "function_call"⟩]⟩)
    ∧ (∀ (c0 : VendorChoice) rest, c0.message.tool_calls = none →
       c0.message.function_call = none →
       azure_normalize_response ⟨c0 :: rest⟩
         = .ok ⟨[⟨⟨some c0.message.content, none, none⟩, none⟩]⟩) := by
  refine ⟨fun c0 rest tc h1 => ?_, fun c0 rest fc h1 h2 => ?_, fun c0 rest h1 h2 => ?_,
    fun c0 rest tc h1 => ?_, fun c0 rest fc h1 h2 => ?_, fun c0 rest h1 h2 => ?_⟩ <;>
    simp [fireworks_normalize_response, azure_normalize_response, h1]
  · simp [h2]
  · simp [h2]
  · simp [h2]
  · simp [h2]

/-- Witness for C2 (amended): a Fireworks response with one tool call. -/
theorem c2_witness :
    fireworks_normalize_response ⟨[⟨⟨"hi", some [⟨"call_0", "f", "1"⟩], none⟩, none⟩]⟩
      = .ok ⟨[⟨⟨some "hi", some [⟨"call_0", "f", "1"⟩], none⟩, some "tool_calls"⟩]⟩ :=
  c2_amended_finish_reason_branches.1 ⟨⟨"hi", some [⟨"call_0", "f", "1"⟩], none⟩, none⟩ []
    [⟨"call_0", "f", "1"⟩] rfl

/-- C7 counterexample: the claim says caller-supplied messages are unchanged
after any adapter call, but `transform_roles` mutates the role fields of the
caller's list in place: after transforming `[system s]` the caller's history
differs from its pre-call value. -/
theorem c7_counterexample_transform_roles_mutates :
    transform_roles [Msg.mk "system" "s"] ≠ [Msg.mk "system" "s"] := by
  decide

/-- C7 amended: the Google role transform rewrites the caller's history in
place to the element-wise role remap: a message whose role is neither
`system` nor `assistant` is unchanged, no content field is ever modified, and
`system`/`assistant` roles become `user`/`model` respectively. -/
theorem c7_amended_transform_roles_effect :
    (∀ messages, transform_roles messages = messages.map google_role_map)
    ∧ (∀ m : Msg, m.role ≠ "system" → m.role ≠ "assistant" → google_role_map m = m)
    ∧ (∀ m : Msg, (google_role_map m).content = m.content)
    ∧ (∀ m : Msg, m.role = "system" → google_role_map m = ⟨"user", m.content⟩)
    ∧ (∀ m : Msg, m.role = "assistant" → google_role_map m = ⟨"model", m.content⟩) := by
  refine ⟨fun _ => rfl, ?_, ?_, ?_, ?_⟩
  · intro m h1 h2
    have hb1 : (m.role == "system") = false := beq_eq_false_iff_ne.mpr h1
    have hb2 : (m.role == "assistant") = false := beq_eq_false_iff_ne.mpr h2
    simp [google_role_map, openai_roles_to_google_roles, List.lookup, hb1, hb2]
  · intro m
    rcases hl : openai_roles_to_google_roles.lookup m.role with _ | r <;>
      simp [google_role_map, hl]
  · rintro ⟨r, c⟩ h
    simp only at h
    subst h
    rfl
  · rintro ⟨r, c⟩ h
    simp only at h
    subst h
    rfl

/-- Witness for C7 (amended): a plain user message is left untouched. -/
theorem c7_witness : google_role_map ⟨"user", "u"⟩ = ⟨"user", "u"⟩ :=
  c7_amended_transform_roles_effect.2.1 ⟨"user", "u"⟩ (by decide) (by decide)

end Aisuite
